import Mathlib

/-!
Verification development for the flashcard-generation core of the
obsidian-auto-anki plugin.  The TypeScript sources are shallowly embedded:
pure functions become Lean functions, the JavaScript runtime behaviours the
code relies on (JSON.parse, String.prototype.trim, the `||` / `??`
operators, regular-expression matching, base64 encoding) are modelled as
executable Lean functions, and the two asynchronous generation entrypoints
are modelled as functions of the outcome of the provider submission.

Machine numbers: every quantity the embedded code manipulates here
(question counts, sample counts, token budgets, byte sizes) is a
non-negative integer far below 2^53, where JavaScript float arithmetic is
exact, so they are modelled as Nat.  The size check `bytesToKB(size) >
maxImageSize`, i.e. size / 1024 > maxKB over floats, is modelled by the
exact equivalent integer comparison size > maxKB * 1024.
-/

namespace AutoAnki

/-! ## JavaScript string and operator primitives -/

/-- The ASCII subset of JavaScript whitespace (`\s`, `trim`): space, tab,
line feed, carriage return, vertical tab, form feed.  (The non-ASCII
members of the class never occur in the inputs considered here.) -/
def isJsWs (c : Char) : Bool :=
  c = ' ' || c = '\t' || c = '\n' || c = '\x0d' || c = '\x0b' || c = '\x0c'

/-- JavaScript `String.prototype.trim`. -/
def jsTrim (s : String) : String :=
  String.mk (((s.data.dropWhile isJsWs).reverse.dropWhile isJsWs).reverse)

/-- ASCII lowering of one character, as `String.prototype.toLowerCase`
acts on the ASCII range (the only range exercised by extension strings). -/
def toLowerChar (c : Char) : Char :=
  if 65 ≤ c.toNat ∧ c.toNat ≤ 90 then Char.ofNat (c.toNat + 32) else c

/-- JavaScript `String.prototype.toLowerCase` (ASCII range). -/
def jsToLower (s : String) : String :=
  String.mk (s.data.map toLowerChar)

/-- JavaScript `a || b` for a string `a`: the empty string is falsy. -/
def jsOrStr (a : String) (b : String) : String :=
  if a = "" then b else a

/-- JavaScript `a?.x || b` where `a` may be undefined: undefined and the
empty string both fall through to the default. -/
def jsOrOpt (a : Option String) (b : String) : String :=
  match a with
  | none => b
  | some v => jsOrStr v b

/-- JavaScript `String.prototype.split` on a one-character separator. -/
def jsSplit (sep : Char) (s : String) : List String :=
  (s.data.splitOn sep).map String.mk

/-- `array.pop()` on the result of a split: the last segment (a split
result is never empty, so the `?.` in the source never sees undefined). -/
def lastSegment (sep : Char) (s : String) : String :=
  (jsSplit sep s).getLastD ""

/-! ## base64 (`btoa` over the bytes of the file) -/

def base64Alphabet : List Char :=
  "ABCDEFGHIJKLMNOPQRSTUVWXYZabcdefghijklmnopqrstuvwxyz0123456789+/".data

def b64char (i : Nat) : Char := base64Alphabet.getD i 'A'

/-- Standard base64 of a byte sequence, as `btoa(String.fromCharCode(...bytes))`
computes it (each byte below 256). -/
def base64Encode : List Nat → List Char
  | [] => []
  | [a] => [b64char (a / 4), b64char (a % 4 * 16), '=', '=']
  | [a, b] => [b64char (a / 4), b64char (a % 4 * 16 + b / 16), b64char (b % 16 * 4), '=']
  | a :: b :: c :: rest =>
      b64char (a / 4) :: b64char (a % 4 * 16 + b / 16) ::
      b64char (b % 16 * 4 + c / 64) :: b64char (c % 64) :: base64Encode rest

/-! ## The canonical one-shot example (SAMPLE_OUTPUT) and its repetition -/

/-- `CardInformation` from the source: one question/answer pair. -/
structure CardInformation where
  q : String
  a : String
deriving DecidableEq

/-- The canonical 12-entry example list `SAMPLE_OUTPUT`. -/
def SAMPLE_OUTPUT : List CardInformation := [
  ⟨"What is a numeral system?", "A numeral system is a writing system for expressing numbers, using digits or other symbols in a consistent manner."⟩,
  ⟨"What is the goal of a numeral system?", "The goal of a numeral system is to represent a useful set of numbers (eg: integers, rational numbers), give every number represented a unique representation, and reflect the algebraic and arithmetic structure of the numbers."⟩,
  ⟨"What is a positional notation also known as?", "Place-value Notation"⟩,
  ⟨"What is a radix/base used for in the context of positional notation?", "To indicate the number of unique digits that are used to represent numbers in a position until the position of the digit is used to signify a power of the base number"⟩,
  ⟨"What numeral system uses a base of 2?", "Binary Numeral System"⟩,
  ⟨"What numeral system uses a base of 8?", "Octal Numeral System"⟩,
  ⟨"What numeral system uses a base of 10?", "Decimal Numeral System"⟩,
  ⟨"What numeral system uses a base of 12?", "Duodecimal Numeral System"⟩,
  ⟨"What numeral system uses a base of 16?", "Hexadecimal Numeral System"⟩,
  ⟨"What numeral system uses a base of 20?", "Vigesimal Numeral System"⟩,
  ⟨"What numeral system uses a base of 60?", "Sexagesimal Numeral System"⟩,
  ⟨"What is binary number representation?", "Binary number representation is a number expressed in the base-2 numeral system or binary numeral system."⟩]

/-- The `while (count < num)` loop of `generateRepeatedSampleOutput`,
with explicit fuel (the loop runs at most ⌈num/12⌉ ≤ num iterations, so
fuel `num` is never exhausted when entered with `count = 0`). -/
def repeatLoop : Nat → Nat → List CardInformation → Nat → List CardInformation
  | 0, _, output, _ => output
  | fuel + 1, count, output, num =>
      if count < num then
        repeatLoop fuel (count + SAMPLE_OUTPUT.length) (output ++ SAMPLE_OUTPUT) num
      else output

/-- `generateRepeatedSampleOutput` from the source: below the canonical
length, a prefix; otherwise whole copies are pushed until `count` reaches
`num`, then the result is `slice(0, num)`-truncated. -/
def generateRepeatedSampleOutput (num : Nat) : List CardInformation :=
  if num < SAMPLE_OUTPUT.length then SAMPLE_OUTPUT.take num
  else (repeatLoop num 0 [] num).take num

/-! ## JSON values and `JSON.parse`

`JSON.parse` is modelled as an executable recursive-descent parser over
the character list of the content.  Numbers are kept as their raw source
token (no float semantics are needed: the embedded code never computes
with parsed numbers, it only tests presence and truthiness). -/

inductive Json where
  | null
  | bool (b : Bool)
  | num (raw : String)
  | str (s : String)
  | arr (elems : List Json)
  | obj (fields : List (String × Json))

def skipWsJson (cs : List Char) : List Char :=
  cs.dropWhile (fun c => c = ' ' || c = '\t' || c = '\n' || c = '\x0d')

def hexVal (c : Char) : Option Nat :=
  if 48 ≤ c.toNat ∧ c.toNat ≤ 57 then some (c.toNat - 48)
  else if 97 ≤ c.toNat ∧ c.toNat ≤ 102 then some (c.toNat - 87)
  else if 65 ≤ c.toNat ∧ c.toNat ≤ 70 then some (c.toNat - 55)
  else none

/-- Body of a JSON string literal, after the opening quote; returns the
decoded characters and the remainder after the closing quote. -/
def parseStringBody : List Char → Option (List Char × List Char)
  | [] => none
  | c :: rest =>
    if c = '"' then some ([], rest)
    else if c = '\\' then
      match rest with
      | [] => none
      | e :: rest2 =>
        if e = 'u' then
          match rest2 with
          | h1 :: h2 :: h3 :: h4 :: rest3 =>
            match hexVal h1, hexVal h2, hexVal h3, hexVal h4 with
            | some a, some b, some c', some d =>
              (parseStringBody rest3).map fun p =>
                (Char.ofNat (a * 4096 + b * 256 + c' * 16 + d) :: p.1, p.2)
            | _, _, _, _ => none
          | _ => none
        else
          match (if e = '"' then some '"'
                 else if e = '\\' then some '\\'
                 else if e = '/' then some '/'
                 else if e = 'b' then some '\x08'
                 else if e = 'f' then some '\x0c'
                 else if e = 'n' then some '\n'
                 else if e = 'r' then some '\x0d'
                 else if e = 't' then some '\t'
                 else none) with
          | some d => (parseStringBody rest2).map fun p => (d :: p.1, p.2)
          | none => none
    else if c.toNat < 32 then none
    else (parseStringBody rest).map fun p => (c :: p.1, p.2)

def digitsSpan (cs : List Char) : List Char × List Char :=
  (cs.takeWhile Char.isDigit, cs.dropWhile Char.isDigit)

/-- A JSON number token: `-?(0|[1-9][0-9]*)(\.[0-9]+)?([eE][+-]?[0-9]+)?`;
returns the raw token and the remainder. -/
def parseNumberTok (cs : List Char) : Option (List Char × List Char) :=
  let (sign, cs1) :=
    match cs with
    | '-' :: r => (['-'], r)
    | _ => ([], cs)
  let (intPart, cs2) := digitsSpan cs1
  if intPart = [] then none
  else if intPart.length > 1 ∧ intPart.headD '0' = '0' then none
  else
    let (fracPart, cs3) :=
      match cs2 with
      | '.' :: r =>
        let (ds, r') := digitsSpan r
        if ds = [] then ([], cs2) else ('.' :: ds, r')
      | _ => ([], cs2)
    match cs3 with
      | '.' :: _ => none
      | _ =>
        let (expPart, cs4) :=
          match cs3 with
          | e :: r =>
            if e = 'e' ∨ e = 'E' then
              let (sgn, r1) :=
                match r with
                | '+' :: rr => (['+'], rr)
                | '-' :: rr => (['-'], rr)
                | _ => ([], r)
              let (ds, r2) := digitsSpan r1
              if ds = [] then ([], cs3) else (e :: (sgn ++ ds), r2)
            else ([], cs3)
          | [] => ([], cs3)
        match cs4 with
        | e :: _ =>
          if (e = 'e' ∨ e = 'E') ∧ expPart = [] then none
          else some (sign ++ intPart ++ fracPart ++ expPart, cs4)
        | [] => some (sign ++ intPart ++ fracPart ++ expPart, cs4)

/-- Parsing mode: a single value, the members of an object after `{`
(first member onward), or the elements of an array after `[`. -/
inductive PMode where
  | value
  | members
  | elements

inductive PResult where
  | val (j : Json)
  | fields (fs : List (String × Json))
  | items (xs : List Json)

/-- One fuel-indexed recursive-descent step; fuel bounds the depth of the
mutual recursion between values, object members and array elements, and
`parse` supplies more fuel than any input can consume. -/
def parseStep : Nat → PMode → List Char → Option (PResult × List Char)
  | 0, _, _ => none
  | fuel + 1, PMode.value, cs =>
    match skipWsJson cs with
    | [] => none
    | 'n' :: 'u' :: 'l' :: 'l' :: r => some (.val .null, r)
    | 't' :: 'r' :: 'u' :: 'e' :: r => some (.val (.bool true), r)
    | 'f' :: 'a' :: 'l' :: 's' :: 'e' :: r => some (.val (.bool false), r)
    | '"' :: rest =>
      (parseStringBody rest).map fun p => (.val (.str (String.mk p.1)), p.2)
    | '{' :: rest =>
      (match skipWsJson rest with
       | '}' :: r => some (.val (.obj []), r)
       | rest' =>
         match parseStep fuel PMode.members rest' with
         | some (.fields fs, r) => some (.val (.obj fs), r)
         | _ => none)
    | '[' :: rest =>
      (match skipWsJson rest with
       | ']' :: r => some (.val (.arr []), r)
       | rest' =>
         match parseStep fuel PMode.elements rest' with
         | some (.items xs, r) => some (.val (.arr xs), r)
         | _ => none)
    | c :: _ =>
      if c = '-' ∨ c.isDigit then
        (parseNumberTok (skipWsJson cs)).map fun p => (.val (.num (String.mk p.1)), p.2)
      else none
  | fuel + 1, PMode.members, cs =>
    (match skipWsJson cs with
     | '"' :: rest =>
       match parseStringBody rest with
       | none => none
       | some (key, r1) =>
         match skipWsJson r1 with
         | ':' :: r2 =>
           (match parseStep fuel PMode.value r2 with
            | some (.val v, r3) =>
              (match skipWsJson r3 with
               | ',' :: r4 =>
                 (match parseStep fuel PMode.members r4 with
                  | some (.fields fs, r5) => some (.fields ((String.mk key, v) :: fs), r5)
                  | _ => none)
               | '}' :: r4 => some (.fields [(String.mk key, v)], r4)
               | _ => none)
            | _ => none)
         | _ => none
     | _ => none)
  | fuel + 1, PMode.elements, cs =>
    (match parseStep fuel PMode.value cs with
     | some (.val v, r) =>
       (match skipWsJson r with
        | ',' :: r2 =>
          (match parseStep fuel PMode.elements r2 with
           | some (.items xs, r3) => some (.items (v :: xs), r3)
           | _ => none)
        | ']' :: r2 => some (.items [v], r2)
        | _ => none)
     | _ => none)

/-- `JSON.parse`: none models a thrown SyntaxError. -/
def jsonParse (s : String) : Option Json :=
  match parseStep (s.data.length + 1) PMode.value s.data with
  | some (.val v, rest) => if skipWsJson rest = [] then some v else none
  | _ => none

/-- JavaScript property read `j["key"]` on a parsed JSON value: none
models undefined.  Object literals with duplicate keys keep the last
occurrence, and a property read on a non-object parsed value (string,
number, boolean, null, array) yields undefined for the keys used here. -/
def Json.getKey (j : Json) (k : String) : Option Json :=
  match j with
  | .obj fields => (fields.reverse.find? (fun p => p.1 = k)).map (·.2)
  | _ => none

/-- JavaScript truthiness of a parsed JSON value (`if (x)`): null, false,
the empty string and numeric zero are falsy. -/
def Json.truthy : Json → Bool
  | .null => false
  | .bool b => b
  | .str s => !(s = "")
  | .arr _ => true
  | .obj _ => true
  | .num raw =>
      (raw.data.takeWhile (fun c => c ≠ 'e' ∧ c ≠ 'E')).any
        (fun c => 49 ≤ c.toNat ∧ c.toNat ≤ 57)

/-! ## The fenced-code-block regular expression

`content.match(/```(?:json)?\s*\n?([\s\S]*?)\n?\s*```/)` and the use of
its first capture group.  The match starts at the first triple backtick
followed (eventually) by a closing triple backtick; `(?:json)?` greedily
consumes a literal `json`; `\s*\n?` greedily consumes whitespace; the
lazy group then ends as early as possible, i.e. the trailing `\n?\s*`
absorbs the maximal whitespace run before the first closing fence.  No
backtick is whitespace or part of `json`, so the skipped prefixes never
contain a fence and the first-success scan of the regex engine coincides
with this direct computation. -/

/-- Split at the first occurrence of three consecutive backticks:
returns the text before it and the text after it. -/
def fenceSplit : List Char → Option (List Char × List Char)
  | '`' :: '`' :: '`' :: rest => some ([], rest)
  | c :: rest => (fenceSplit rest).map fun p => (c :: p.1, p.2)
  | [] => none

/-- First capture group of the fenced-block regular expression, or none
when the content has no match (`match` returned null). -/
def fenceMatch (cs : List Char) : Option (List Char) :=
  match fenceSplit cs with
  | none => none
  | some (_, afterOpen) =>
    let afterTag :=
      if afterOpen.take 4 = ['j', 's', 'o', 'n'] then afterOpen.drop 4 else afterOpen
    match fenceSplit (afterTag.dropWhile isJsWs) with
    | none => none
    | some (inner, _) => some ((inner.reverse.dropWhile isJsWs).reverse)

/-! ## Per-choice response parsing (Response Reconciler)

The body of the `response.choices.forEach` handler shared by
`convertNotesToFlashcards` and `convertStandaloneFileToFlashcards`:
parse the content as JSON; if the parsed value has no
`questions_answers` property, try one fenced-block recovery; any thrown
error (SyntaxError from `JSON.parse`, the explicit
`questions_answers not found` error, or the TypeError raised by reading
`.length` of a null property value in the success log) is caught per
choice and drops that choice.  The returned value is the raw
`questions_answers` property value (the `as CardInformation[]` cast
performs no runtime check). -/

def parseContentCore (content : String) : Option Json :=
  match jsonParse content with
  | none => none
  | some parsedContent =>
    match parsedContent.getKey "questions_answers" with
    | none =>
      (match fenceMatch content.data with
       | none => none
       | some inner =>
         match jsonParse (String.mk inner) with
         | none => none
         | some jsonContent =>
           match jsonContent.getKey "questions_answers" with
           | some qa => if qa.truthy then some qa else none
           | none => none)
    | some Json.null => none
    | some qa => some qa

/-- One choice of `convertNotesToFlashcards`: the content is
`set.message.content ?? ''`. -/
def parseChoiceNotes (rawContent : Option String) : Option Json :=
  parseContentCore (rawContent.getD "")

/-- One choice of `convertStandaloneFileToFlashcards`: the content is
`set.message?.content?.trim() || ''` (trimming the empty string and
defaulting an absent content both yield the empty string). -/
def parseChoiceStandalone (rawContent : Option String) : Option Json :=
  parseContentCore (jsTrim (rawContent.getD ""))

/-- The `forEach` accumulation into `card_choices` over the choices of a
notes response. -/
def processChoicesNotes (choices : List (Option String)) : List Json :=
  choices.foldl
    (fun card_choices c =>
      match parseChoiceNotes c with
      | some qa => card_choices ++ [qa]
      | none => card_choices) []

/-- The `forEach` accumulation into `card_choices` over the choices of a
standalone-file response. -/
def processChoicesStandalone (choices : List (Option String)) : List Json :=
  choices.foldl
    (fun card_choices c =>
      match parseChoiceStandalone c with
      | some qa => card_choices ++ [qa]
      | none => card_choices) []

/-! ## Settings and media data model -/

/-- `AIProvider` from settings. -/
inductive AIProvider where
  | openai
  | ollama
deriving DecidableEq

/-- `MultimodalSettings` from settings (sizes in KB). -/
structure MultimodalSettings where
  enabled : Bool
  visionModel : String
  maxImageSize : Nat
  supportedFormats : List String
deriving DecidableEq

/-- `ImageInfo` from image-utils. -/
structure ImageInfo where
  path : String
  base64 : String
  mimeType : String
  alt : Option String
deriving DecidableEq

/-! ## `JSON.stringify` for the one-shot assistant sample -/

def hexDigit (n : Nat) : Char :=
  if n < 10 then Char.ofNat (48 + n) else Char.ofNat (87 + n)

/-- `JSON.stringify` escaping of one character of a string value. -/
def jsonEscapeChar (c : Char) : List Char :=
  if c = '"' then ['\\', '"']
  else if c = '\\' then ['\\', '\\']
  else if c = '\x08' then ['\\', 'b']
  else if c = '\t' then ['\\', 't']
  else if c = '\n' then ['\\', 'n']
  else if c = '\x0c' then ['\\', 'f']
  else if c = '\x0d' then ['\\', 'r']
  else if c.toNat < 32 then
    ['\\', 'u', '0', '0', hexDigit (c.toNat / 16), hexDigit (c.toNat % 16)]
  else [c]

def jsonEscape (s : String) : String :=
  String.mk (s.data.foldr (fun c acc => jsonEscapeChar c ++ acc) [])

/-- `JSON.stringify({ "questions_answers": cards })` with the insertion
key order `q`, `a` of the sample cards. -/
def stringifySample (cards : List CardInformation) : String :=
  "\x7b\"questions_answers\":[" ++
    String.intercalate ","
      (cards.map fun c =>
        "\x7b\"q\":\"" ++ jsonEscape c.q ++ "\",\"a\":\"" ++ jsonEscape c.a ++ "\"\x7d") ++
  "]\x7d"

/-! ## Prompt messages (Prompt Builder) -/

inductive Role where
  | system
  | user
  | assistant
deriving DecidableEq

/-- One element of a multi-segment content array. -/
inductive ContentPart where
  | textPart (text : String)
  | imageUrlPart (url : String)
deriving DecidableEq

/-- Message content: a plain string or a content array. -/
inductive MsgContent where
  | str (s : String)
  | parts (ps : List ContentPart)
deriving DecidableEq

structure ChatMessage where
  role : Role
  content : MsgContent
deriving DecidableEq

/-- The sample note `SAMPLE_NOTE`. -/
def SAMPLE_NOTE : String :=
  "A numeral system is a writing system for expressing numbers. It is a mathematical notation for representing numbers of a given set, using digits or other symbols in a consistent manner.\n" ++
  "\n" ++
  "Ideally, a numeral system will:\n" ++
  "- represent a useful set of numbers (eg: integers, rational numbers)\n" ++
  "- give every number represented a unique representation\n" ++
  "- reflect the algebraic and arithmetic structure of the numbers\n" ++
  "\n" ++
  "#### Positional Notation\n" ++
  "> also known as the \"place-value notation\"\n" ++
  "\n" ++
  "Uses a **radix**/**base** (eg: base 10) to indicate the number of unique *digits* that are used to represent numbers in a position until the position of the digit is used to signify a power of the *base* number.\n" ++
  "\n" ++
  "- Positional Systems with Base 2: [[Binary Numeral System]]\n" ++
  "- Positional Systems with Base 8: Octal Numeral System\n" ++
  "- Positional Systems with Base 10: Decimal Numeral System\n" ++
  "- Positional Systems with Base 12: Duodecimal (dozenal) Numeral System\n" ++
  "- Positional Systems with Base 16: Hexadecimal Numeral System\n" ++
  "- Positional Systems with Base 20: Vigesimal Numeral System\n" ++
  "- Positional Systems with Base 60: Sexagesimal Numeral System\n"

/-- The JSON-format guideline bullet shared by both notes system prompts. -/
def outputFormatGuideline : String :=
  "- output the questions and answers in the following JSON format \x7b \"questions_answers\": [\x7b \"q\": \"<generated question>\", \"a\": \"<generated answer>\" \x7d] \x7d"

/-- The media-aware system instruction of `createMessages`. -/
def systemContentWithImages (num : Nat) : String :=
  "You will be provided notes on a specific topic along with images. The notes are formatted in markdown. Based on the given notes and images, make a list of " ++
  toString num ++
  " questions and short answers that can be used for reviewing said notes by spaced repetition. Use the following guidelines:\n        " ++
  outputFormatGuideline ++
  "\n        - ensure that the questions cover the entire portion of the given notes and images, do not come up with similar questions or repeat the same questions\n        - when referencing images in questions or answers, describe the relevant visual content clearly\n        - create questions that test understanding of both textual and visual information where applicable"

/-- The text-only system instruction of `createMessages`. -/
def systemContentTextOnly (num : Nat) : String :=
  "You will be provided notes on a specific topic. The notes are formatted in markdown. Based on the given notes, make a list of " ++
  toString num ++
  " questions and short answers that can be used for reviewing said notes by spaced repetition. Use the following guidelines:\n        " ++
  outputFormatGuideline ++
  "\n        - ensure that the questions cover the entire portion of the given notes, do not come up with similar questions or repeat the same questions"

/-- `images && images.length > 0`. -/
def hasImages (images : Option (List ImageInfo)) : Bool :=
  match images with
  | none => false
  | some imgs => 0 < imgs.length

/-- The embedded-data URI `data:<mimeType>;base64,<encodedContent>`. -/
def dataUri (image : ImageInfo) : String :=
  "data:" ++ image.mimeType ++ ";base64," ++ image.base64

/-- `createMessages` from the source: system message, sample user note,
sample assistant output, then the real user message (a content array with
the text segment first and one image segment per image when images are
present, a plain string otherwise). -/
def createMessages (notes : String) (num : Nat) (images : Option (List ImageInfo)) :
    List ChatMessage :=
  [⟨Role.system, MsgContent.str
      (if hasImages images then systemContentWithImages num else systemContentTextOnly num)⟩,
   ⟨Role.user, MsgContent.str SAMPLE_NOTE⟩,
   ⟨Role.assistant, MsgContent.str (stringifySample (generateRepeatedSampleOutput num))⟩,
   (match images with
    | some imgs =>
      if 0 < imgs.length then
        ⟨Role.user, MsgContent.parts
          (ContentPart.textPart ("\n" ++ jsTrim notes ++ "\n") ::
           imgs.map fun image => ContentPart.imageUrlPart (dataUri image))⟩
      else ⟨Role.user, MsgContent.str ("\n" ++ jsTrim notes ++ "\n")⟩
    | none => ⟨Role.user, MsgContent.str ("\n" ++ jsTrim notes ++ "\n")⟩)]

/-- The system instruction of `createMessagesForStandaloneFile`. -/
def standaloneSystemContent (num_q : Nat) : String :=
  "You are a helpful assistant designed to generate comprehensive flashcard questions and answers from visual content (images, PDFs, etc.). \n" ++
  "\n" ++
  "Your task is to:\n" ++
  "1. Analyze the provided file content carefully\n" ++
  "2. Generate " ++ toString num_q ++ " high-quality questions that test understanding of the visual content\n" ++
  "3. Provide clear, accurate answers\n" ++
  "4. Focus on key concepts, details, and information visible in the file\n" ++
  "5. Make questions specific to what can be observed in the content\n" ++
  "\n" ++
  "Format your response as a JSON object with this exact structure:\n" ++
  "\x7b\n" ++
  "    \"questions_answers\": [\n" ++
  "        \x7b\"q\": \"Your question here\", \"a\": \"Your answer here\"\x7d\n" ++
  "    ]\n" ++
  "\x7d\n" ++
  "\n" ++
  "Important guidelines:\n" ++
  "- Questions should be clear and specific to the visual content\n" ++
  "- Answers should be comprehensive but concise\n" ++
  "- Focus on educational value\n" ++
  "- Ensure questions test different aspects of the content (if applicable)\n" ++
  "- For images: focus on visible elements, diagrams, text, concepts shown\n" ++
  "- For PDFs: focus on key information, structure, main points\n"

/-- `createMessagesForStandaloneFile` from the source: system message,
sample assistant output (sized with the local constant `num = 1`), then
the user message carrying the text preamble and the single file segment.
No sample user message is pushed in this flow. -/
def createMessagesForStandaloneFile (fileInfo : ImageInfo) (num_q : Nat) :
    List ChatMessage :=
  [⟨Role.system, MsgContent.str (standaloneSystemContent num_q)⟩,
   ⟨Role.assistant, MsgContent.str (stringifySample (generateRepeatedSampleOutput 1))⟩,
   ⟨Role.user, MsgContent.parts
     [ContentPart.textPart
        ("Please analyze this file and generate " ++ toString num_q ++
         " educational flashcard questions and answers based on its content: " ++
         jsOrOpt fileInfo.alt fileInfo.path),
      ContentPart.imageUrlPart (dataUri fileInfo)]⟩]

/-! ## Provider Dispatcher: model selection and completion parameters -/

/-- `multimodalSettings?.enabled` as a condition (undefined is falsy). -/
def mmEnabled (multimodalSettings : Option MultimodalSettings) : Bool :=
  match multimodalSettings with
  | none => false
  | some s => s.enabled

/-- Model selection of `convertNotesToFlashcards`: openai picks the
vision model when images were processed; ollama picks
`multimodalSettings.visionModel` (as-is, no fallback) when images were
processed and multimodal is enabled, otherwise `model || 'llama3.2'`.
The none result models the TypeError a vision-branch read of
`multimodalSettings.visionModel` would raise without settings, which the
guard makes unreachable. -/
def selectModelNotes (provider : AIProvider) (processedImages : List ImageInfo)
    (multimodalSettings : Option MultimodalSettings) (model : Option String) :
    Option String :=
  match provider with
  | AIProvider.openai =>
      some (if 0 < processedImages.length then "gpt-4-vision-preview" else "gpt-3.5-turbo-1106")
  | AIProvider.ollama =>
      if 0 < processedImages.length ∧ mmEnabled multimodalSettings then
        match multimodalSettings with
        | some s => some s.visionModel
        | none => none
      else some (jsOrOpt model "llama3.2")

/-- Model selection of `convertStandaloneFileToFlashcards`: openai always
uses the vision model; ollama uses
`multimodalSettings?.visionModel || 'llama3.2-vision:11b'`. -/
def selectModelStandalone (provider : AIProvider)
    (multimodalSettings : Option MultimodalSettings) : String :=
  match provider with
  | AIProvider.openai => "gpt-4-vision-preview"
  | AIProvider.ollama =>
      jsOrOpt (multimodalSettings.map (fun s => s.visionModel)) "llama3.2-vision:11b"

/-- `GptAdvancedOptions`: only `max_tokens_per_question` is destructured
by the dispatchers; the sampling options (temperature, top_p,
frequency_penalty, presence_penalty, and any further completion options)
are spread into the request unchanged and are carried opaquely as
`rest`. -/
structure GptAdvancedOptions (ρ : Type) where
  max_tokens_per_question : Nat
  rest : ρ
deriving DecidableEq

/-- The `ChatCompletionCreateParams` value each dispatcher submits. -/
structure CompletionParams (ρ : Type) where
  rest : ρ
  model : String
  messages : List ChatMessage
  max_tokens : Nat
  n : Option Nat
  stream : Bool
  response_format_json : Bool
deriving DecidableEq

/-- The completion parameters built by `convertNotesToFlashcards`:
`max_tokens: tokensPerQuestion * num_q`, `n: num`, and the JSON
response-format hint only for openai with no images. -/
def buildCompletionParamsNotes {ρ : Type} (options : GptAdvancedOptions ρ)
    (provider : AIProvider) (modelToUse : String) (processedNotes : String)
    (num_q num : Nat) (processedImages : List ImageInfo) : CompletionParams ρ :=
  { rest := options.rest
    model := modelToUse
    messages := createMessages processedNotes num_q
      (if 0 < processedImages.length then some processedImages else none)
    max_tokens := options.max_tokens_per_question * num_q
    n := some num
    stream := false
    response_format_json :=
      provider == AIProvider.openai && processedImages.length == 0 }

/-- The completion parameters built by `convertStandaloneFileToFlashcards`:
`max_tokens: tokensPerQuestion * num_q * num`, no `n`, no response-format
hint. -/
def buildCompletionParamsStandalone {ρ : Type} (options : GptAdvancedOptions ρ)
    (modelToUse : String) (processedFile : ImageInfo) (num_q num : Nat) :
    CompletionParams ρ :=
  { rest := options.rest
    model := modelToUse
    messages := createMessagesForStandaloneFile processedFile num_q
    max_tokens := options.max_tokens_per_question * num_q * num
    n := none
    stream := false
    response_format_json := false }

/-! ## Entrypoint outcomes

Each generation entrypoint is an async function whose submission phase
(configuration, media processing, client construction and the network
call) may fail; the entrypoints are modelled as functions of that
submission outcome.  An exceptional function result is an
`Except.error`. -/

/-- The shape of a submission error as the catch blocks inspect it:
`err.response` may be absent (no network response) or carry a status. -/
structure ApiError where
  message : String
  responseStatus : Option Nat
deriving DecidableEq

/-- `convertNotesToFlashcards`: the catch around submission logs and
`return []`; on success the choices are reconciled (the outer catch
around the forEach is unreachable because every throwing statement is
inside the per-choice try). -/
def convertNotesToFlashcardsOutcome
    (submission : Except ApiError (List (Option String))) :
    Except ApiError (List Json) :=
  match submission with
  | Except.error _ => Except.ok []
  | Except.ok choices => Except.ok (processChoicesNotes choices)

/-- `convertStandaloneFileToFlashcards`: the catch around submission logs
and rethrows (`throw error`); on success the choices are reconciled. -/
def convertStandaloneFileToFlashcardsOutcome
    (submission : Except ApiError (List (Option String))) :
    Except ApiError (List Json) :=
  match submission with
  | Except.error e => Except.error e
  | Except.ok choices => Except.ok (processChoicesStandalone choices)

/-! ## Media Resolver (image-utils) -/

/-- `getMimeType`'s extension-to-MIME table, in source order. -/
def mimeTypes : List (String × String) :=
  [("jpg", "image/jpeg"), ("jpeg", "image/jpeg"), ("png", "image/png"),
   ("gif", "image/gif"), ("bmp", "image/bmp"), ("webp", "image/webp"),
   ("pdf", "application/pdf")]

/-- The JavaScript value `mimeTypes[key] || 'image/jpeg'` produces: an
own-property (or default) string, or a truthy non-string value inherited
from `Object.prototype` — bracket access on a plain object literal walks
the prototype chain, and a truthy inherited value is not replaced by the
`||` default. -/
inductive MimeValue where
  | strVal (s : String)
  | inherited (name : String)
deriving DecidableEq

/-- The own properties of `Object.prototype` whose names are entirely
lowercase — the only ones reachable through a key that has passed
`toLowerCase()`, since property lookup is case-sensitive.  Both inherited
values are truthy: `constructor` is the `Object` function and
`__proto__` is the `Object.prototype` object. -/
def objectPrototypeLowercaseKeys : List String := ["constructor", "__proto__"]

/-- `getMimeType`: bracket lookup of the lowercased extension on the
`mimeTypes` object literal, then `|| 'image/jpeg'`.  An own property
yields its string; a key inherited from `Object.prototype` yields that
truthy inherited value (so the default does not fire); any other key is
undefined and yields the default. -/
def getMimeType (extension : String) : MimeValue :=
  match mimeTypes.find? (fun p => p.1 = jsToLower extension) with
  | some p => MimeValue.strVal p.2
  | none =>
    if jsToLower extension ∈ objectPrototypeLowercaseKeys then
      MimeValue.inherited (jsToLower extension)
    else MimeValue.strVal "image/jpeg"

/-- ECMAScript string coercion of the looked-up value, as the
`data:${image.mimeType};base64,...` template literal applies it: a string
interpolates as itself, the inherited `constructor` function stringifies
through `Function.prototype.toString` (the NativeFunction source text)
and the inherited `__proto__` object through `Object.prototype.toString`
as `[object Object]`. -/
def MimeValue.interpolate : MimeValue → String
  | MimeValue.strVal s => s
  | MimeValue.inherited name =>
    if name = "constructor" then "function Object() \x7b [native code] \x7d"
    else "[object Object]"

/-- `isSupportedImageFormat`: the lowercased last dot-segment must be
non-empty (an empty `pop()` result is falsy) and listed. -/
def isSupportedImageFormat (path : String) (supportedFormats : List String) : Bool :=
  let extension := jsToLower (lastSegment '.' path)
  if extension = "" then false else supportedFormats.contains extension

/-- `isSupportedMediaFormat` delegates to `isSupportedImageFormat`. -/
def isSupportedMediaFormat (path : String) (supportedFormats : List String) : Bool :=
  isSupportedImageFormat path supportedFormats

/-- One attempt of the image regular expression
`/!\[([^\]]*)\]\(([^)]+)\)/` just after a `!`: an optional alt text up to
`]`, then `(`, then a non-empty path up to `)`.  Returns alt, path and
the remainder after the closing parenthesis. -/
def tryImageAt (r : List Char) : Option (List Char × List Char × List Char) :=
  match r with
  | '[' :: r1 =>
    let alt := r1.takeWhile (fun c => c ≠ ']')
    (match r1.dropWhile (fun c => c ≠ ']') with
     | ']' :: '(' :: r2 =>
       let path := r2.takeWhile (fun c => c ≠ ')')
       if path.isEmpty then none
       else
         match r2.dropWhile (fun c => c ≠ ')') with
         | ')' :: r3 => some (alt, path, r3)
         | _ => none
     | _ => none)
  | _ => none

/-- The global `exec` scan of `extractImageReferences`: advance one
character on a failed attempt, continue after the match on success.  The
fuel equals the scanned length, which bounds the number of steps since
every step consumes at least one character. -/
def extractRefsGo : Nat → List Char → List (String × String)
  | 0, _ => []
  | _, [] => []
  | fuel + 1, c :: rest =>
    if c = '!' then
      match tryImageAt rest with
      | some (alt, path, r') =>
          (String.mk alt, String.mk path) :: extractRefsGo fuel r'
      | none => extractRefsGo fuel rest
    else extractRefsGo fuel rest

/-- `extractImageReferences`: every markdown image reference, in order,
as (alt, path) pairs (`alt || ''` is the identity on the captured
string). -/
def extractImageReferences (markdownText : String) : List (String × String) :=
  extractRefsGo markdownText.data.length markdownText.data

/-- An Obsidian `TFile` as the embedded code reads it: vault path, file
name, byte size from `stat`, and the binary content `readBinary`
returns. -/
structure TFile where
  path : String
  name : String
  size : Nat
  bytes : List Nat
deriving DecidableEq

/-- A vault entry: `getAbstractFileByPath` may also return a folder,
which the `instanceof TFile` checks reject. -/
inductive VaultItem where
  | file (f : TFile)
  | folder (path : String)
deriving DecidableEq

/-- The content-store state visible through `app.vault`. -/
structure App where
  items : List VaultItem
deriving DecidableEq

def VaultItem.itemPath : VaultItem → String
  | VaultItem.file f => f.path
  | VaultItem.folder p => p

/-- `app.vault.getAbstractFileByPath`. -/
def getAbstractFileByPath (app : App) (path : String) : Option VaultItem :=
  app.items.find? (fun it => it.itemPath = path)

/-- The `instanceof TFile` refinement. -/
def asTFile : Option VaultItem → Option TFile
  | some (VaultItem.file f) => some f
  | _ => none

/-- `app.vault.getFiles()`. -/
def getFiles (app : App) : List TFile :=
  app.items.filterMap fun it =>
    match it with
    | VaultItem.file f => some f
    | VaultItem.folder _ => none

/-- The path-resolution ladder of `processImages`: direct path, exact
name, path suffix, then basename; returns the file and the value of the
(possibly updated) `imagePath` variable. -/
def resolveImageFile (app : App) (imagePath : String) : Option (TFile × String) :=
  match asTFile (getAbstractFileByPath app imagePath) with
  | some f => some (f, imagePath)
  | none =>
    let allFiles := getFiles app
    match allFiles.find? (fun f => f.name = imagePath) with
    | some f => some (f, f.path)
    | none =>
      match allFiles.find? (fun f => f.path.endsWith imagePath) with
      | some f => some (f, f.path)
      | none =>
        let imageName := jsOrStr (lastSegment '/' imagePath) imagePath
        match allFiles.find? (fun f => f.name = imageName) with
        | some f => some (f, f.path)
        | none => none

/-- The loop body of `processImages` for one reference: web URLs,
unsupported formats, unresolved paths and oversized files are skipped;
otherwise the file bytes are read and encoded.  Returns the produced
`ImageInfo` and the path whose bytes were read. -/
def processOneImage (app : App) (multimodalSettings : MultimodalSettings)
    (imageRef : String × String) : Option (ImageInfo × String) :=
  let alt := imageRef.1
  let path0 := imageRef.2
  if path0.startsWith "http://" ∨ path0.startsWith "https://" then none
  else if !isSupportedImageFormat path0 multimodalSettings.supportedFormats then none
  else
    match resolveImageFile app path0 with
    | none => none
    | some (imageFile, imagePath) =>
      if imageFile.size > multimodalSettings.maxImageSize * 1024 then none
      else
        let base64 := String.mk (base64Encode imageFile.bytes)
        let extension := jsOrStr (jsToLower (lastSegment '.' imagePath)) "jpeg"
        some ({ path := imagePath, base64 := base64,
                mimeType := (getMimeType extension).interpolate, alt := some alt },
              imageFile.path)

/-- `processImages`: the empty list immediately when multimodal is
disabled; otherwise the per-reference loop.  The second component is the
trace of content-store reads (`readBinary` calls), in order. -/
def processImages (app : App) (markdownText : String)
    (multimodalSettings : MultimodalSettings) : List ImageInfo × List String :=
  if !multimodalSettings.enabled then ([], [])
  else
    (extractImageReferences markdownText).foldl
      (fun acc imageRef =>
        match processOneImage app multimodalSettings imageRef with
        | some (info, readPath) => (acc.1 ++ [info], acc.2 ++ [readPath])
        | none => acc)
      ([], [])

/-- `processStandaloneFile`: null immediately when multimodal is
disabled; otherwise format and size checks, then one read.  The second
component is the trace of content-store reads. -/
def processStandaloneFile (_app : App) (file : TFile)
    (multimodalSettings : MultimodalSettings) : Option ImageInfo × List String :=
  if !multimodalSettings.enabled then (none, [])
  else
    let filePath := file.path
    if !isSupportedMediaFormat filePath multimodalSettings.supportedFormats then (none, [])
    else if file.size > multimodalSettings.maxImageSize * 1024 then (none, [])
    else
      let base64 := String.mk (base64Encode file.bytes)
      let extension := jsOrStr (jsToLower (lastSegment '.' filePath)) "jpeg"
      (some { path := filePath, base64 := base64,
              mimeType := (getMimeType extension).interpolate, alt := some file.name },
       [filePath])

/-! ## Concrete instances used by the theorems below -/

/-- A processed media item as the Media Resolver produces it. -/
def img1 : ImageInfo :=
  ⟨"images/neural-network.png", "QUJDRA==", "image/png", some "Neural Network Diagram"⟩

/-- Multimodal settings with multimodal on and no vision model configured. -/
def mmNoVision : MultimodalSettings :=
  ⟨true, "", 5000, ["jpg", "jpeg", "png", "gif", "bmp", "webp"]⟩

/-- The default multimodal settings with multimodal on. -/
def mmVision : MultimodalSettings :=
  ⟨true, "llama3.2-vision:11b", 5000, ["jpg", "jpeg", "png", "gif", "bmp", "webp"]⟩

/-- The default multimodal settings (multimodal off). -/
def mmDisabled : MultimodalSettings :=
  ⟨false, "llama3.2-vision:11b", 5000, ["jpg", "jpeg", "png", "gif", "bmp", "webp"]⟩

/-- Generation options with the default 100 tokens per question. -/
def gptOpts100 : GptAdvancedOptions Unit := ⟨100, ()⟩

/-- A submission failure value. -/
def apiErr : ApiError := ⟨"Could not connect", some 500⟩

/-- A completion choice content that is neither JSON nor fenced. -/
def proseContent : String := "This is plain prose with no JSON and no fence."

/-- The round-trip content `{"questions_answers":[{"q":"X","a":"Y"}]}`. -/
def unfencedContent : String :=
  "\x7b\"questions_answers\":[\x7b\"q\":\"X\",\"a\":\"Y\"\x7d]\x7d"

/-- The same content wrapped in a ```json fence. -/
def fencedContent : String := "```json\n" ++ unfencedContent ++ "\n```"

/-- The parsed `questions_answers` value of `unfencedContent`. -/
def qaXY : Json := Json.arr [Json.obj [("q", Json.str "X"), ("a", Json.str "Y")]]

/-- A small content store. -/
def sampleApp : App :=
  ⟨[VaultItem.file ⟨"images/neural-network.png", "neural-network.png", 2048, [1, 2, 3]⟩]⟩

/-- A standalone media file. -/
def sampleTFile : TFile := ⟨"slides/deck.pdf", "deck.pdf", 4096, [4, 5]⟩

/-! ## Theorems -/

theorem sample_output_length : SAMPLE_OUTPUT.length = 12 := rfl

theorem repeatLoop_spec (fuel : Nat) :
    ∀ count output num, num - count ≤ fuel → output.length = count →
    count % 12 = 0 →
    (∀ i, i < output.length → output[i]? = SAMPLE_OUTPUT[i % 12]?) →
    num ≤ (repeatLoop fuel count output num).length ∧
    ∀ i, i < (repeatLoop fuel count output num).length →
      (repeatLoop fuel count output num)[i]? = SAMPLE_OUTPUT[i % 12]? := by
  induction fuel with
  | zero =>
    intro count output num hfuel hlen _ hget
    refine ⟨?_, hget⟩
    have : num ≤ count := by omega
    simpa [repeatLoop, hlen] using this
  | succ fuel ih =>
    intro count output num hfuel hlen hmod hget
    by_cases h : count < num
    · have hstep :
          repeatLoop (fuel + 1) count output num =
          repeatLoop fuel (count + SAMPLE_OUTPUT.length) (output ++ SAMPLE_OUTPUT) num := by
        simp [repeatLoop, h]
      rw [hstep, sample_output_length]
      refine ih (count + 12) (output ++ SAMPLE_OUTPUT) num (by omega)
        (by simp [hlen, sample_output_length]) (by omega) ?_
      intro i hi
      simp only [List.length_append, hlen, sample_output_length] at hi
      by_cases hlt : i < output.length
      · rw [List.getElem?_append, if_pos hlt]
        exact hget i hlt
      · rw [List.getElem?_append, if_neg hlt, hlen]
        have : i % 12 = i - count := by omega
        rw [this]
    · have hstep : repeatLoop (fuel + 1) count output num = output := by
        simp [repeatLoop, h]
      rw [hstep]
      exact ⟨by omega, hget⟩

/-- C5: for every requested count `num ≥ 1`,
`generateRepeatedSampleOutput num` has length exactly `num` and entry `i`
equals entry `i mod 12` of the canonical 12-entry example list — the
canonical list cyclically repeated and truncated. -/
theorem generateRepeatedSampleOutput_cyclic (num : Nat) (hnum : 1 ≤ num) :
    (generateRepeatedSampleOutput num).length = num ∧
    ∀ i, i < num →
      (generateRepeatedSampleOutput num)[i]? = SAMPLE_OUTPUT[i % 12]? := by
  unfold generateRepeatedSampleOutput
  by_cases h : num < SAMPLE_OUTPUT.length
  · rw [if_pos h]
    constructor
    · rw [List.length_take, sample_output_length]
      rw [sample_output_length] at h
      omega
    · intro i hi
      rw [sample_output_length] at h
      have : i % 12 = i := Nat.mod_eq_of_lt (by omega)
      rw [this, List.getElem?_take, if_pos hi]
  · rw [if_neg h]
    obtain ⟨hge, hget⟩ :=
      repeatLoop_spec num 0 [] num (by omega) rfl (by omega) (by simp)
    constructor
    · rw [List.length_take]
      omega
    · intro i hi
      rw [List.getElem?_take, if_pos hi]
      exact hget i (by omega)

/-- C5 witness at `num = 15`: length 15, the first 12 entries are the
canonical list and entries 13–15 repeat entries 1–3. -/
theorem generateRepeatedSampleOutput_cyclic_witness :
    1 ≤ 15 ∧
    ((generateRepeatedSampleOutput 15).length = 15 ∧
     ∀ i, i < 15 →
       (generateRepeatedSampleOutput 15)[i]? = SAMPLE_OUTPUT[i % 12]?) :=
  ⟨by decide, generateRepeatedSampleOutput_cyclic 15 (by decide)⟩

theorem lowered_not_upper : ∀ n, n < 91 → 65 ≤ n →
    ¬(65 ≤ (Char.ofNat (n + 32)).toNat ∧ (Char.ofNat (n + 32)).toNat ≤ 90) := by
  decide

theorem toLowerChar_idem (c : Char) : toLowerChar (toLowerChar c) = toLowerChar c := by
  unfold toLowerChar
  by_cases h : 65 ≤ c.toNat ∧ c.toNat ≤ 90
  · rw [if_pos h, if_neg (lowered_not_upper c.toNat (by omega) (by omega))]
  · rw [if_neg h, if_neg h]

theorem jsToLower_idem (s : String) : jsToLower (jsToLower s) = jsToLower s := by
  simp [jsToLower, List.map_map, Function.comp_def, toLowerChar_idem]

/-- C8: evaluation of `getMimeType` at the failing inputs of the
prototype-chain leak.  The seven supported extensions do map
(case-insensitively) to their MIME types, the mapping depends only on the
lowercased extension, and every extension outside both the table and the
lowercase `Object.prototype` property names maps to the `image/jpeg`
default — but an extension lowering to `constructor` or `__proto__`
returns the truthy value inherited from `Object.prototype` instead of
the default, so the claim's universal default clause fails at those
inputs. -/
theorem getMimeType_prototype_leak :
    getMimeType "jpg" = MimeValue.strVal "image/jpeg" ∧
    getMimeType "jpeg" = MimeValue.strVal "image/jpeg" ∧
    getMimeType "png" = MimeValue.strVal "image/png" ∧
    getMimeType "gif" = MimeValue.strVal "image/gif" ∧
    getMimeType "bmp" = MimeValue.strVal "image/bmp" ∧
    getMimeType "webp" = MimeValue.strVal "image/webp" ∧
    getMimeType "pdf" = MimeValue.strVal "application/pdf" ∧
    getMimeType "constructor" = MimeValue.inherited "constructor" ∧
    getMimeType "CONSTRUCTOR" = MimeValue.inherited "constructor" ∧
    getMimeType "__proto__" = MimeValue.inherited "__proto__" ∧
    getMimeType "constructor" ≠ MimeValue.strVal "image/jpeg" ∧
    (∀ extension : String, getMimeType extension = getMimeType (jsToLower extension)) ∧
    (∀ extension : String, jsToLower extension ∉ mimeTypes.map Prod.fst →
      jsToLower extension ∉ objectPrototypeLowercaseKeys →
      getMimeType extension = MimeValue.strVal "image/jpeg") := by
  refine ⟨rfl, rfl, rfl, rfl, rfl, rfl, rfl, rfl, rfl, rfl, by decide, ?_, ?_⟩
  · intro extension
    unfold getMimeType
    rw [jsToLower_idem]
  · intro extension h hp
    unfold getMimeType
    have hnone : mimeTypes.find? (fun p => p.1 = jsToLower extension) = none := by
      rw [List.find?_eq_none]
      intro x hx
      simp only [decide_eq_true_eq]
      intro heq
      exact h (heq ▸ List.mem_map_of_mem Prod.fst hx)
    rw [hnone, if_neg hp]

/-- C8 witness: the unsupported extension `TIFF` (uppercase) lowers to a
string outside both the table and the prototype keys and maps to the
default. -/
theorem getMimeType_prototype_leak_witness :
    jsToLower "TIFF" ∉ mimeTypes.map Prod.fst ∧
    jsToLower "TIFF" ∉ objectPrototypeLowercaseKeys ∧
    getMimeType "TIFF" = MimeValue.strVal "image/jpeg" :=
  ⟨by decide, by decide,
   getMimeType_prototype_leak.2.2.2.2.2.2.2.2.2.2.2.2 "TIFF" (by decide) (by decide)⟩

/-- C4 counterexample: the standalone-file flow produces three messages
(system, sample assistant, real user) — there is no sample user message,
so its role sequence is not system, user, assistant, user. -/
theorem standalone_messages_counterexample :
    (createMessagesForStandaloneFile img1 5).map ChatMessage.role ≠
      [Role.system, Role.user, Role.assistant, Role.user] := by
  decide

/-- C4 amended: the note flow emits exactly system, sample user, sample
assistant, real user, in that fixed order; the standalone-file flow emits
exactly system, sample assistant, real user — it omits the sample user
message. -/
theorem messages_order_amended :
    (∀ notes num images, (createMessages notes num images).map ChatMessage.role =
      [Role.system, Role.user, Role.assistant, Role.user]) ∧
    (∀ fileInfo num_q,
      (createMessagesForStandaloneFile fileInfo num_q).map ChatMessage.role =
      [Role.system, Role.assistant, Role.user]) := by
  constructor
  · intro notes num images
    rcases images with _ | imgs
    · rfl
    · by_cases h : 0 < imgs.length <;> simp [createMessages, h]
  · intro fileInfo num_q
    rfl

/-- C6: in the note flow, with at least one resolved media item the final
user message content is an array of exactly one text segment followed by
one `data:<mimeType>;base64,<encodedContent>` image segment per item in
resolution order; with zero media it is a single plain string, not an
array. -/
theorem createMessages_user_content (notes : String) (num : Nat)
    (imgs : List ImageInfo) :
    (imgs ≠ [] →
      (createMessages notes num (some imgs)).getLast? =
        some ⟨Role.user, MsgContent.parts
          (ContentPart.textPart ("\n" ++ jsTrim notes ++ "\n") ::
            imgs.map fun image => ContentPart.imageUrlPart
              ("data:" ++ image.mimeType ++ ";base64," ++ image.base64))⟩) ∧
    (createMessages notes num none).getLast? =
      some ⟨Role.user, MsgContent.str ("\n" ++ jsTrim notes ++ "\n")⟩ := by
  constructor
  · intro h
    have hlen : 0 < imgs.length := List.length_pos.mpr h
    simp [createMessages, hlen, dataUri]
  · rfl

/-- C6 witness at a concrete one-image request. -/
theorem createMessages_user_content_witness :
    ([img1] : List ImageInfo) ≠ [] ∧
    (createMessages "Sample notes" 2 (some [img1])).getLast? =
      some ⟨Role.user, MsgContent.parts
        [ContentPart.textPart ("\n" ++ jsTrim "Sample notes" ++ "\n"),
         ContentPart.imageUrlPart "data:image/png;base64,QUJDRA=="]⟩ :=
  ⟨by decide,
   (createMessages_user_content "Sample notes" 2 [img1]).1 (by decide)⟩

/-- C9 counterexample: a standalone-file request with 100 tokens per
question, 2 questions and 3 alternatives submits `max_tokens = 600`, not
`maxTokensPerQuestion * questionCount = 200`. -/
theorem standalone_max_tokens_counterexample :
    (buildCompletionParamsStandalone gptOpts100 "llama3.2-vision:11b" img1 2 3).max_tokens ≠
      gptOpts100.max_tokens_per_question * 2 := by
  decide

/-- C9 amended: the note entrypoint submits
`max_tokens = maxTokensPerQuestion * questionCount`; the standalone-file
entrypoint submits `max_tokens = maxTokensPerQuestion * questionCount *
sampleCount` (the extra alternatives factor). -/
theorem max_tokens_budget_amended {ρ : Type} (options : GptAdvancedOptions ρ) :
    (∀ provider modelToUse processedNotes num_q num processedImages,
      (buildCompletionParamsNotes options provider modelToUse processedNotes
        num_q num processedImages).max_tokens =
      options.max_tokens_per_question * num_q) ∧
    (∀ modelToUse processedFile num_q num,
      (buildCompletionParamsStandalone options modelToUse processedFile
        num_q num).max_tokens =
      options.max_tokens_per_question * num_q * num) :=
  ⟨fun _ _ _ _ _ _ => rfl, fun _ _ _ _ => rfl⟩

/-- C3 counterexample: in `convertNotesToFlashcards` with provider
ollama, one resolved media item, multimodal enabled and no vision model
configured (empty string), the selected model is the empty string — the
dispatcher does not fall back to `llama3.2-vision:11b` in this
entrypoint. -/
theorem ollama_vision_fallback_counterexample :
    selectModelNotes AIProvider.ollama [img1] (some mmNoVision) (some "llama3.2") =
      some "" ∧
    selectModelNotes AIProvider.ollama [img1] (some mmNoVision) (some "llama3.2") ≠
      some "llama3.2-vision:11b" := by
  constructor
  · rfl
  · decide

/-- C3 amended: with no media the ollama dispatcher selects the
configured default model (`model || 'llama3.2'`), in both entrypoints'
no-media positions; with media the note entrypoint uses
`multimodalSettings.visionModel` verbatim (no fallback, so an
unconfigured empty vision model is passed through as the empty string);
only the standalone-file entrypoint falls back to `llama3.2-vision:11b`
when the vision model is unset or empty. -/
theorem selectModel_amended :
    (∀ mm : Option MultimodalSettings,
      selectModelNotes AIProvider.ollama [] mm (some "llama3.2") = some "llama3.2") ∧
    (∀ (s : MultimodalSettings) (imgs : List ImageInfo) (model : Option String),
      0 < imgs.length → s.enabled = true →
      selectModelNotes AIProvider.ollama imgs (some s) model = some s.visionModel) ∧
    selectModelStandalone AIProvider.ollama (some mmNoVision) = "llama3.2-vision:11b" ∧
    selectModelStandalone AIProvider.ollama none = "llama3.2-vision:11b" ∧
    (∀ s : MultimodalSettings, s.visionModel ≠ "" →
      selectModelStandalone AIProvider.ollama (some s) = s.visionModel) := by
  refine ⟨?_, ?_, rfl, rfl, ?_⟩
  · intro mm
    rfl
  · intro s imgs model h hen
    simp [selectModelNotes, mmEnabled, h, hen]
  · intro s h
    unfold selectModelStandalone jsOrOpt jsOrStr
    simp [h]

/-- C3 witness: with the default-configured vision model the note
entrypoint selects it for a one-image ollama request. -/
theorem selectModel_amended_witness :
    0 < ([img1] : List ImageInfo).length ∧ mmVision.enabled = true ∧
    selectModelNotes AIProvider.ollama [img1] (some mmVision) (some "llama3.2") =
      some "llama3.2-vision:11b" :=
  ⟨by decide, by decide,
   selectModel_amended.2.1 mmVision [img1] (some "llama3.2") (by decide) (by decide)⟩

/-- C2 counterexample: a submission failure in
`convertStandaloneFileToFlashcards` is rethrown, not converted to an
empty result collection. -/
theorem standalone_failure_counterexample :
    convertStandaloneFileToFlashcardsOutcome (Except.error apiErr) ≠
      Except.ok [] :=
  fun h => Except.noConfusion h

/-- C2 amended: on every submission failure `convertNotesToFlashcards`
returns the empty result collection, while
`convertStandaloneFileToFlashcards` rethrows the error to its caller. -/
theorem submission_failure_amended (e : ApiError) :
    convertNotesToFlashcardsOutcome (Except.error e) = Except.ok [] ∧
    convertStandaloneFileToFlashcardsOutcome (Except.error e) = Except.error e :=
  ⟨rfl, rfl⟩

theorem processChoices_foldl (f : Option String → Option Json) :
    ∀ (choices : List (Option String)) (acc : List Json),
      choices.foldl
        (fun card_choices c =>
          match f c with
          | some qa => card_choices ++ [qa]
          | none => card_choices) acc =
      acc ++ choices.filterMap f := by
  intro choices
  induction choices with
  | nil => intro acc; simp
  | cons c cs ih =>
    intro acc
    cases hfc : f c <;> simp [List.foldl_cons, List.filterMap_cons, hfc, ih]

theorem processChoicesNotes_eq_filterMap (choices : List (Option String)) :
    processChoicesNotes choices = choices.filterMap parseChoiceNotes := by
  unfold processChoicesNotes
  rw [processChoices_foldl]
  simp

/-- C7: a choice whose content is plain prose (no JSON, no fence)
contributes zero entries and leaves every other choice of the batch
untouched; the output holds one entry per successfully parsed choice, in
choice order, and is never longer than the choice list. -/
theorem malformed_choice_isolated :
    parseChoiceNotes (some proseContent) = none ∧
    (∀ xs ys : List (Option String),
      processChoicesNotes (xs ++ some proseContent :: ys) =
        processChoicesNotes xs ++ processChoicesNotes ys) ∧
    (∀ choices, processChoicesNotes choices = choices.filterMap parseChoiceNotes) ∧
    (∀ choices, (processChoicesNotes choices).length ≤ choices.length) := by
  have hprose : parseChoiceNotes (some proseContent) = none := rfl
  refine ⟨hprose, ?_, processChoicesNotes_eq_filterMap, ?_⟩
  · intro xs ys
    simp [processChoicesNotes_eq_filterMap, List.filterMap_append,
      List.filterMap_cons, hprose]
  · intro choices
    rw [processChoicesNotes_eq_filterMap]
    exact List.length_filterMap_le _ _

/-- C1: the Response Reconciler drops a fenced choice instead of
recovering it.  Direct parse of the unfenced round-trip content yields
the one-element pair list, and the fenced-block regular expression does
extract the recoverable inner content which parses to the very same
value — but because `JSON.parse` throws on the fenced content before the
recovery branch (which is only reached when direct parse succeeds with
the key absent), the fenced choice parses to nothing, in both the note
flow and the standalone flow. -/
theorem fenced_recovery_dropped :
    parseChoiceNotes (some unfencedContent) = some qaXY ∧
    fenceMatch fencedContent.data = some unfencedContent.data ∧
    jsonParse (String.mk ((fenceMatch fencedContent.data).getD [])) =
      some (Json.obj [("questions_answers", qaXY)]) ∧
    jsonParse fencedContent = none ∧
    parseChoiceNotes (some fencedContent) = none ∧
    parseChoiceStandalone (some fencedContent) = none :=
  ⟨rfl, rfl, rfl, rfl, rfl, rfl⟩

/-- C10: with the multimodal enabled flag off, `processImages` returns
the empty list and `processStandaloneFile` returns null, and neither
performs any content-store read (empty read trace). -/
theorem multimodal_disabled_no_processing (app : App) (markdownText : String)
    (file : TFile) (mm : MultimodalSettings) (h : mm.enabled = false) :
    processImages app markdownText mm = ([], []) ∧
    processStandaloneFile app file mm = (none, []) := by
  constructor
  · simp [processImages, h]
  · simp [processStandaloneFile, h]

/-- C10 witness: disabled settings at a concrete store, note text and
file. -/
theorem multimodal_disabled_no_processing_witness :
    mmDisabled.enabled = false ∧
    processImages sampleApp "![d](images/neural-network.png)" mmDisabled = ([], []) ∧
    processStandaloneFile sampleApp sampleTFile mmDisabled = (none, []) :=
  ⟨rfl,
   (multimodal_disabled_no_processing sampleApp "![d](images/neural-network.png)"
     sampleTFile mmDisabled rfl).1,
   (multimodal_disabled_no_processing sampleApp "![d](images/neural-network.png)"
     sampleTFile mmDisabled rfl).2⟩

end AutoAnki


